import Mathlib

/-!
Shallow embedding of the public-gallery front end
(`src/gallery-frontend/app/main.py`): the TTL response cache in front of
backend calls (`_get`), the listing filter/pagination logic
(`gallery_index`), the media-proxy path guard (`media_proxy`), the
cache-clear operation (`clear_cache`) and the health probe
(`health_check`).

Modelling conventions:
* Python dictionaries `_cache` / `_cache_time` become functions
  `String → Option _`; wall-clock instants and the TTL become `Int`
  (seconds), so `datetime.now() - last < timedelta(seconds=TTL)` is the
  integer comparison `now - last < ttl`.
* The upstream HTTP layer is a parameter `upstream : String → UpstreamResult α`:
  either a transport-level failure (`requests.RequestException`) or a
  response carrying its status code, body text and parsed JSON payload.
  JSON parsing is modelled as total (the payload accompanies the response).
* `requests.Response.ok` is `status < 400`, exactly as in the library.
* Artworks are records of optional fields; `a.get(k, '')` is `Option.getD`.
  The `year` field may hold a string or a number (`/api/stats` normalises
  both), so it is `Option YearVal`.
* Python string primitives (`in`, `lower`, `strip`, `startswith`, `int()`)
  are re-implemented as structural recursions over `List Char`, restricted
  to their ASCII behaviour (no Unicode case folding, no underscore digit
  separators), so that every predicate is kernel-computable.
-/

namespace ArtGallery

/-! ### Python string primitives -/

/-- Does `needle` occur at the head of `l`?  (Helper for substring search.) -/
def leadMatch : List Char → List Char → Bool
  | [], _ => true
  | _ :: _, [] => false
  | c :: cs, d :: ds => c == d && leadMatch cs ds

/-- Does `needle` occur (contiguously) anywhere in `l`?  Python `needle in s`. -/
def hasSub (needle : List Char) : List Char → Bool
  | [] => leadMatch needle []
  | c :: cs => leadMatch needle (c :: cs) || hasSub needle cs

/-- Python `needle in hay` for strings. -/
def strContains (hay needle : String) : Bool :=
  hasSub needle.data hay.data

/-- Python `s.startswith(pre)`. -/
def strStarts (s pre : String) : Bool :=
  leadMatch pre.data s.data

/-- Python `s.lower()` (ASCII case folding). -/
def strLower (s : String) : String :=
  ⟨s.data.map Char.toLower⟩

/-- Python `s.strip()` (ASCII whitespace). -/
def pyStrip (s : String) : String :=
  ⟨((s.data.dropWhile Char.isWhitespace).reverse.dropWhile Char.isWhitespace).reverse⟩

/-- Value of a decimal digit character. -/
def charDigit (c : Char) : Option Nat :=
  if '0' ≤ c ∧ c ≤ '9' then some (c.toNat - 48) else none

/-- Accumulating decimal parser: `none` as soon as a non-digit appears. -/
def digitsToNat : List Char → Nat → Option Nat
  | [], acc => some acc
  | c :: cs, acc =>
    match charDigit c with
    | some d => digitsToNat cs (acc * 10 + d)
    | none => none

/-- Python `int(s)` on a string: surrounding whitespace stripped, one optional
sign, then a non-empty run of decimal digits; anything else raises
`ValueError`, modelled as `none`. -/
def pyIntOfString (s : String) : Option Int :=
  match (pyStrip s).data with
  | [] => none
  | '-' :: rest =>
    match rest with
    | [] => none
    | _ => (digitsToNat rest 0).map (fun n => -(n : Int))
  | '+' :: rest =>
    match rest with
    | [] => none
    | _ => (digitsToNat rest 0).map (fun n => (n : Int))
  | l => (digitsToNat l 0).map (fun n => (n : Int))

/-! ### Data model -/

/-- The `year` field of an artwork as delivered in JSON: either a string or
an integer.  Python truthiness and `int()` conversion act on both. -/
inductive YearVal where
  | str (s : String)
  | int (n : Int)
deriving DecidableEq

/-- Python truthiness of a `year` value: `''` and `0` are falsy. -/
def YearVal.pyTruthy : YearVal → Bool
  | .str s => s ≠ ""
  | .int n => n ≠ 0

/-- Python `int(year)`: identity on integers, parsing on strings. -/
def YearVal.pyToInt : YearVal → Option Int
  | .str s => pyIntOfString s
  | .int n => some n

/-- An artwork record; every field the front end reads is optional, as the
code accesses them through `dict.get`. -/
structure Artwork where
  artwork_id : Option String := none
  title : Option String := none
  keywords : Option String := none
  medium : Option String := none
  surface : Option String := none
  year : Option YearVal := none
deriving DecidableEq

/-! ### Cache-Fetch layer (`_get`) -/

/-- The process-wide dictionaries `_cache` and `_cache_time`, keyed by
request path. -/
structure CacheState (α : Type) where
  cache : String → Option α
  time : String → Option Int

/-- Outcome of one upstream HTTP attempt: a transport-level failure
(`requests.RequestException`) or a response with status, body text and
parsed JSON payload. -/
inductive UpstreamResult (α : Type) where
  | transportError (msg : String)
  | response (status : Nat) (body : String) (json : α)

/-- The two failure shapes `_get` raises: `HTTPException(r.status_code, r.text)`
for a non-ok upstream response (the spec's `UpstreamError`), and
`HTTPException(503, ...)` for a transport failure (the spec's
`ServiceUnavailable`). -/
inductive FetchErr where
  | upstream (status : Nat) (detail : String)
  | serviceUnavailable (detail : String)
deriving DecidableEq

/-- Result of one `_get` call: the returned value or raised error, the cache
state afterwards, and whether an upstream request was issued. -/
structure FetchOutcome (α : Type) where
  result : Except FetchErr α
  st : CacheState α
  upstreamCalled : Bool

/-- The freshness test of `_get`: an entry and a timestamp exist for `path`
and `now - last < ttl`. -/
def freshHit {α : Type} (ttl : Int) (st : CacheState α) (now : Int) (path : String) : Bool :=
  match st.cache path, st.time path with
  | some _, some last => decide (now - last < ttl)
  | _, _ => false

/-- Store a freshly fetched payload under `path` with timestamp `now`
(the two dictionary assignments in `_get`). -/
def CacheState.store {α : Type} (st : CacheState α) (path : String) (v : α) (now : Int) :
    CacheState α :=
  ⟨fun p => if p = path then some v else st.cache p,
   fun p => if p = path then some now else st.time p⟩

/-- The cache-miss branch of `_get`: issue the upstream request; translate a
transport failure to a 503, a non-ok status to `HTTPException(status, body)`,
and store a successful payload. -/
def fetchFresh {α : Type} (upstream : String → UpstreamResult α) (st : CacheState α)
    (now : Int) (path : String) : FetchOutcome α :=
  match upstream path with
  | .transportError msg =>
    ⟨.error (.serviceUnavailable ("Backend service unavailable: " ++ msg)), st, true⟩
  | .response status body json =>
    if status < 400 then ⟨.ok json, st.store path json now, true⟩
    else ⟨.error (.upstream status body), st, true⟩

/-- `_get(path)`: return the cached payload when an entry exists and is
younger than the TTL, otherwise fetch upstream. -/
def fetch {α : Type} (ttl : Int) (upstream : String → UpstreamResult α)
    (st : CacheState α) (now : Int) (path : String) : FetchOutcome α :=
  match st.cache path, st.time path with
  | some v, some last =>
    if now - last < ttl then ⟨.ok v, st, false⟩
    else fetchFresh upstream st now path
  | _, _ => fetchFresh upstream st now path

/-! ### Collection-Query (`gallery_index`) -/

/-- The haystack of `matches_query`: the five fields, `''` when absent,
joined by single spaces by the f-string, then lower-cased. -/
def haystack (a : Artwork) : String :=
  strLower (a.artwork_id.getD "" ++ " " ++ a.title.getD "" ++ " " ++ a.keywords.getD ""
    ++ " " ++ a.medium.getD "" ++ " " ++ a.surface.getD "")

/-- `matches_query` of `gallery_index`: the normalised query occurs in the
haystack. -/
def matches_query (ql : String) (a : Artwork) : Bool :=
  strContains (haystack a) ql

/-- The text-search step: applied only when `q` is truthy and still
non-empty after `q.lower().strip()`. -/
def queryFilter (q : Option String) (items : List Artwork) : List Artwork :=
  match q with
  | none => items
  | some qs =>
    if qs = "" then items
    else
      let ql := pyStrip (strLower qs)
      if ql = "" then items
      else items.filter (matches_query ql)

/-- `year_gte` of `gallery_index`: falsy years fail, then `int(year) >= year_from`
with conversion failure treated as `False`. -/
def year_gte (year_from : Int) (a : Artwork) : Bool :=
  match a.year with
  | none => false
  | some y =>
    if y.pyTruthy then
      match y.pyToInt with
      | some n => decide (year_from ≤ n)
      | none => false
    else false

/-- `year_lte` of `gallery_index`, symmetric to `year_gte`. -/
def year_lte (year_to : Int) (a : Artwork) : Bool :=
  match a.year with
  | none => false
  | some y =>
    if y.pyTruthy then
      match y.pyToInt with
      | some n => decide (n ≤ year_to)
      | none => false
    else false

/-- The `year_from` step: applied whenever the parameter is present
(`is not None`), even for `0`. -/
def yearFromFilter (yf : Option Int) (items : List Artwork) : List Artwork :=
  match yf with
  | none => items
  | some v => items.filter (year_gte v)

/-- The `year_to` step. -/
def yearToFilter (yt : Option Int) (items : List Artwork) : List Artwork :=
  match yt with
  | none => items
  | some v => items.filter (year_lte v)

/-- The medium step: applied when the parameter is truthy; compares the
artwork's medium lower-cased (not stripped) against the filter value
lower-cased then stripped. -/
def mediumFilter (m : Option String) (items : List Artwork) : List Artwork :=
  match m with
  | none => items
  | some ms =>
    if ms = "" then items
    else items.filter (fun a => strLower (a.medium.getD "") == pyStrip (strLower ms))

/-- The four filter steps of `gallery_index` in source order. -/
def filteredItems (collection : List Artwork) (q : Option String)
    (yf yt : Option Int) (m : Option String) : List Artwork :=
  mediumFilter m (yearToFilter yt (yearFromFilter yf (queryFilter q collection)))

/-- The dropdown list: distinct, sorted, non-empty stripped medium values of
the unfiltered collection (`sorted({...})` in the source). -/
def galleryMediums (collection : List Artwork) : List String :=
  List.insertionSort (· ≤ ·)
    (((collection.map (fun a => pyStrip (a.medium.getD ""))).filter (fun s => s ≠ "")).dedup)

/-- The pagination metadata dictionary built by `gallery_index`. -/
structure Pagination where
  page : Nat
  per_page : Nat
  total_items : Nat
  total_pages : Nat
  has_prev : Bool
  has_next : Bool
deriving DecidableEq

/-- What `gallery_index` hands to the template: the page slice, the medium
dropdown list and the pagination metadata. -/
structure GalleryResult where
  artworks : List Artwork
  mediums : List String
  pagination : Pagination

/-- `gallery_index(collection, q, year_from, year_to, medium, page, per_page)`:
parameter normalisation, the four filters, the dropdown list from the
unfiltered collection, and pagination, in source order.  Both `_get` calls
of the handler hit the same `/api/artworks` entry within one request, so the
collection appears once. -/
def gallery_index (collection : List Artwork) (q : Option String)
    (year_from year_to : Option Int) (medium : Option String)
    (page per_page : Int) : GalleryResult :=
  let per_page := if per_page < 1 ∨ per_page > 100 then 24 else per_page
  let page := if page < 1 then 1 else page
  let items := filteredItems collection q year_from year_to medium
  let mediums := galleryMediums collection
  let pp : Nat := per_page.toNat
  let total_items := items.length
  let total_pages := max 1 ((total_items + pp - 1) / pp)
  let pageN : Nat := max 1 (min page.toNat (if total_items > 0 then total_pages else 1))
  let start := (pageN - 1) * pp
  ⟨(items.drop start).take pp, mediums,
   ⟨pageN, pp, total_items, total_pages, decide (pageN > 1), decide (pageN < total_pages)⟩⟩

/-! ### Media proxy, cache clear, health probe -/

/-- The observable responses of `media_proxy`. -/
inductive MediaResponse where
  | invalidPath400
  | upstreamStatusError (status : Nat)
  | unavailable503
  | streamed
deriving DecidableEq

/-- Result of `media_proxy`: response plus whether an upstream request was
issued. -/
structure MediaOutcome where
  response : MediaResponse
  upstreamCalled : Bool
deriving DecidableEq

/-- `media_proxy(full_path)`: reject paths containing `..` or starting with
`/` before any upstream call; otherwise stream the upstream response,
translating non-ok statuses and transport failures. -/
def media_proxy {α : Type} (upstream : String → UpstreamResult α) (full_path : String) :
    MediaOutcome :=
  if strContains full_path ".." || strStarts full_path "/" then
    ⟨.invalidPath400, false⟩
  else
    match upstream ("/media/" ++ full_path) with
    | .transportError _ => ⟨.unavailable503, true⟩
    | .response status _ _ =>
      if status < 400 then ⟨.streamed, true⟩ else ⟨.upstreamStatusError status, true⟩

/-- `clear_cache(api_key)`: 403 (state untouched) unless the supplied key
equals the configured key and a key is configured; on success both
dictionaries are emptied. -/
def clear_cache {α : Type} (API_KEY api_key : String) (st : CacheState α) :
    Except Nat Unit × CacheState α :=
  if api_key ≠ API_KEY ∨ API_KEY = "" then (.error 403, st)
  else (.ok (), ⟨fun _ => none, fun _ => none⟩)

/-- Health-probe verdict. -/
inductive HealthStatus where
  | healthy
  | unhealthy
deriving DecidableEq

/-- Result of `health_check`: verdict, cache state afterwards, and whether
an upstream request was issued. -/
structure HealthOutcome (α : Type) where
  status : HealthStatus
  st : CacheState α
  upstreamCalled : Bool

/-- `health_check()`: calls `_get("/api/artworks")` (which may answer from
the cache) and reports healthy iff that call does not raise. -/
def health_check {α : Type} (ttl : Int) (upstream : String → UpstreamResult α)
    (st : CacheState α) (now : Int) : HealthOutcome α :=
  let o := fetch ttl upstream st now "/api/artworks"
  match o.result with
  | .ok _ => ⟨.healthy, o.st, o.upstreamCalled⟩
  | .error _ => ⟨.unhealthy, o.st, o.upstreamCalled⟩

/-! ### Spec-side predicates (formalising the claim wording, for comparison
with the source-side definitions) -/

/-- The C4 claim's matching predicate, read literally from the spec: the
lower-cased query occurs in the separator-free concatenation of the five
fields (missing fields as `''`). -/
def claimConcatMatches (q : String) (a : Artwork) : Bool :=
  strContains
    (strLower (a.artwork_id.getD "" ++ a.title.getD "" ++ a.keywords.getD ""
      ++ a.medium.getD "" ++ a.surface.getD ""))
    (strLower q)

/-- The C5 claim's predicate, read literally from the spec: the `year` field
parses as an integer that is `≥ year_from`. -/
def claimYearGte (year_from : Int) (a : Artwork) : Bool :=
  match a.year with
  | none => false
  | some y =>
    match y.pyToInt with
    | some n => decide (year_from ≤ n)
    | none => false

/-- The C6 claim's predicate, read literally from the spec: the artwork's
medium, trimmed and lower-cased, equals the trimmed and lower-cased filter
value. -/
def claimMediumEq (mv : String) (a : Artwork) : Bool :=
  pyStrip (strLower (a.medium.getD "")) == pyStrip (strLower mv)

/-! ### Concrete inputs for witnesses and counterexamples -/

/-- A cache state holding payload `7` for `/api/artworks` stored at time `100`. -/
def stC1 : CacheState Nat :=
  ⟨fun p => if p = "/api/artworks" then some 7 else none,
   fun p => if p = "/api/artworks" then some 100 else none⟩

/-- An upstream that always answers 200 with payload `5`. -/
def upC1 : String → UpstreamResult Nat := fun _ => .response 200 "ok" 5

/-- The empty cache state. -/
def emptyCacheNat : CacheState Nat := ⟨fun _ => none, fun _ => none⟩

/-- An upstream answering status 300 (not 2xx, but `ok` for `requests`)
with a parseable body. -/
def upC3 : String → UpstreamResult Nat := fun _ => .response 300 "redirect" 7

/-- An upstream answering 404. -/
def upC3w : String → UpstreamResult Nat := fun _ => .response 404 "not found" 0

/-- An artwork whose id ends in `b` and whose title starts with `c`. -/
def aC4 : Artwork := { artwork_id := some "ab", title := some "cd" }

/-- An artwork in oil, as in the spec's own example. -/
def aC4w : Artwork := { medium := some "Oil on canvas" }

/-- An artwork whose `year` is the JSON number `0`. -/
def aC5 : Artwork := { year := some (.int 0) }

/-- An artwork whose `year` is the string `"1995"`. -/
def aC5w : Artwork := { year := some (.str "1995") }

/-- An artwork whose medium carries a trailing space. -/
def aC6 : Artwork := { medium := some "Oil " }

/-- An artwork in oil, for the C6 witness. -/
def aC6w : Artwork := { medium := some "Oil on canvas" }

/-- An arbitrary media upstream. -/
def upC8 : String → UpstreamResult Nat := fun _ => .response 200 "bytes" 0

/-- A cache state holding stale data, for the C9 witness. -/
def stC9 : CacheState Nat :=
  ⟨fun p => if p = "/api/artworks" then some 7 else none,
   fun p => if p = "/api/artworks" then some 0 else none⟩

/-- A cache state with a fresh `/api/artworks` entry (stored at time `0`,
probed at time `10`, TTL `300`). -/
def stC10 : CacheState Nat :=
  ⟨fun p => if p = "/api/artworks" then some 7 else none,
   fun p => if p = "/api/artworks" then some 0 else none⟩

/-- A backend that is down: every request fails at transport level. -/
def upC10 : String → UpstreamResult Nat := fun _ => .transportError "connection refused"

/-! ## Theorems -/

/-- A fresh hit returns the cached payload, touches nothing, calls nobody. -/
theorem fetch_hit {α : Type} {ttl : Int} {upstream : String → UpstreamResult α}
    {st : CacheState α} {now : Int} {path : String} {v : α} {last : Int}
    (hc : st.cache path = some v) (ht : st.time path = some last)
    (hf : now - last < ttl) :
    fetch ttl upstream st now path = ⟨.ok v, st, false⟩ := by
  unfold fetch
  rw [hc, ht]
  simp [hf]

/-- Without a fresh hit, `_get` takes the upstream branch. -/
theorem fetch_miss {α : Type} {ttl : Int} (upstream : String → UpstreamResult α)
    {st : CacheState α} {now : Int} {path : String}
    (h : freshHit ttl st now path = false) :
    fetch ttl upstream st now path = fetchFresh upstream st now path := by
  unfold freshHit at h
  unfold fetch
  cases hc : st.cache path with
  | none => rfl
  | some v =>
    cases ht : st.time path with
    | none => rfl
    | some last =>
      rw [hc, ht] at h
      simp only [decide_eq_false_iff_not] at h
      simp [h]

/-- The upstream branch always issues an upstream request. -/
theorem fetchFresh_called {α : Type} (upstream : String → UpstreamResult α)
    (st : CacheState α) (now : Int) (path : String) :
    (fetchFresh upstream st now path).upstreamCalled = true := by
  unfold fetchFresh
  cases upstream path with
  | transportError m => rfl
  | response s b j =>
    dsimp only
    split <;> rfl

/-- On an ok upstream response the upstream branch stores and returns the
payload. -/
theorem fetchFresh_ok {α : Type} {upstream : String → UpstreamResult α}
    {st : CacheState α} {now : Int} {path : String} {s : Nat} {b : String} {j : α}
    (hu : upstream path = .response s b j) (hs : s < 400) :
    fetchFresh upstream st now path = ⟨.ok j, st.store path j now, true⟩ := by
  unfold fetchFresh
  rw [hu]
  simp [hs]

/-- On a non-ok upstream response the upstream branch raises
`HTTPException(status, body)` and leaves the cache untouched. -/
theorem fetchFresh_err {α : Type} {upstream : String → UpstreamResult α}
    {st : CacheState α} {now : Int} {path : String} {s : Nat} {b : String} {j : α}
    (hu : upstream path = .response s b j) (hs : ¬ s < 400) :
    fetchFresh upstream st now path = ⟨.error (.upstream s b), st, true⟩ := by
  unfold fetchFresh
  rw [hu]
  simp [hs]

/-- On a transport failure the upstream branch raises `HTTPException(503, ...)`
and leaves the cache untouched. -/
theorem fetchFresh_transport {α : Type} {upstream : String → UpstreamResult α}
    {st : CacheState α} {now : Int} {path : String} {msg : String}
    (hu : upstream path = .transportError msg) :
    fetchFresh upstream st now path
      = ⟨.error (.serviceUnavailable ("Backend service unavailable: " ++ msg)), st, true⟩ := by
  unfold fetchFresh
  rw [hu]

/-- C1: for every backend path, a cache entry younger than the TTL is
returned as is — no upstream call, cache state untouched; with no fresh
entry an upstream request is issued and, on success, the entry and its
timestamp are replaced by the fresh payload and `now`; and a payload is
returned without an upstream call only on a fresh hit of the cached value. -/
theorem C1_ttl_cache {α : Type} (ttl : Int) (upstream : String → UpstreamResult α)
    (st : CacheState α) (now : Int) (path : String) :
    (∀ v last, st.cache path = some v → st.time path = some last → now - last < ttl →
        fetch ttl upstream st now path = ⟨.ok v, st, false⟩)
    ∧ (freshHit ttl st now path = false →
        (fetch ttl upstream st now path).upstreamCalled = true
        ∧ ∀ s b j, upstream path = .response s b j → s < 400 →
            (fetch ttl upstream st now path).result = .ok j
            ∧ (fetch ttl upstream st now path).st.cache path = some j
            ∧ (fetch ttl upstream st now path).st.time path = some now)
    ∧ (∀ v, (fetch ttl upstream st now path).result = .ok v →
        (fetch ttl upstream st now path).upstreamCalled = false →
        freshHit ttl st now path = true ∧ st.cache path = some v) := by
  refine ⟨fun v last hc ht hf => fetch_hit hc ht hf, fun hmiss => ?_, fun v hok hcall => ?_⟩
  · rw [fetch_miss upstream hmiss]
    refine ⟨fetchFresh_called upstream st now path, fun s b j hu hs => ?_⟩
    rw [fetchFresh_ok hu hs]
    simp [CacheState.store]
  · cases hfh : freshHit ttl st now path with
    | true =>
      refine ⟨rfl, ?_⟩
      unfold freshHit at hfh
      cases hc : st.cache path with
      | none => rw [hc] at hfh; cases hfh
      | some w =>
        cases ht : st.time path with
        | none => rw [hc, ht] at hfh; cases hfh
        | some last =>
          rw [hc, ht] at hfh
          simp only [decide_eq_true_eq] at hfh
          rw [fetch_hit hc ht hfh] at hok
          simp only [Except.ok.injEq] at hok
          rw [hok]
    | false =>
      rw [fetch_miss upstream hfh, fetchFresh_called upstream st now path] at hcall
      cases hcall

/-- Witness for C1 at a concrete fresh cache entry (age 50 < TTL 300). -/
theorem C1_witness :
    fetch 300 upC1 stC1 150 "/api/artworks" = ⟨.ok 7, stC1, false⟩ :=
  (C1_ttl_cache 300 upC1 stC1 150 "/api/artworks").1 7 100 (by decide) (by decide) (by decide)

/-- C3 counterexample: an upstream status of 300 is not 2xx, yet `_get`
returns the parsed payload instead of failing with an `UpstreamError`,
because the code tests `requests`' `r.ok`, i.e. `status < 400`. -/
theorem C3_counterexample :
    ¬ (200 ≤ 300 ∧ 300 ≤ 299)
    ∧ (fetch 300 upC3 emptyCacheNat 0 "/api/artworks").result = .ok 7 :=
  ⟨by decide, rfl⟩

/-- C3 (amended): when `_get` reaches the upstream (no fresh cache hit), it
fails with `UpstreamError(status, body)` exactly when the response status is
`≥ 400` (`requests`' non-ok, rather than non-2xx), and with
`ServiceUnavailable` exactly when the request fails at transport level. -/
theorem C3_error_classification {α : Type} (ttl : Int)
    (upstream : String → UpstreamResult α) (st : CacheState α) (now : Int)
    (path : String) (hmiss : freshHit ttl st now path = false) :
    (∀ msg, upstream path = .transportError msg →
        (fetch ttl upstream st now path).result
          = .error (.serviceUnavailable ("Backend service unavailable: " ++ msg)))
    ∧ (∀ s b j, upstream path = .response s b j →
        (400 ≤ s → (fetch ttl upstream st now path).result = .error (.upstream s b))
        ∧ (s < 400 → (fetch ttl upstream st now path).result = .ok j))
    ∧ (∀ e, (fetch ttl upstream st now path).result = .error e →
        (∃ s b j, upstream path = .response s b j ∧ 400 ≤ s ∧ e = .upstream s b)
        ∨ (∃ msg, upstream path = .transportError msg
            ∧ e = .serviceUnavailable ("Backend service unavailable: " ++ msg))) := by
  rw [fetch_miss upstream hmiss]
  refine ⟨fun msg hu => ?_, fun s b j hu => ⟨fun hs => ?_, fun hs => ?_⟩, fun e he => ?_⟩
  · rw [fetchFresh_transport hu]
  · rw [fetchFresh_err hu (Nat.not_lt.mpr hs)]
  · rw [fetchFresh_ok hu hs]
  · cases hu : upstream path with
    | transportError msg =>
      rw [fetchFresh_transport hu] at he
      simp only [Except.error.injEq] at he
      exact Or.inr ⟨msg, rfl, he.symm⟩
    | response s b j =>
      by_cases hs : s < 400
      · rw [fetchFresh_ok hu hs] at he
        cases he
      · rw [fetchFresh_err hu hs] at he
        simp only [Except.error.injEq] at he
        exact Or.inl ⟨s, b, j, rfl, Nat.not_lt.mp hs, he.symm⟩

/-- Witness for C3 (amended) at a concrete 404 response on an empty cache. -/
theorem C3_witness :
    (fetch 1 upC3w emptyCacheNat 0 "/p").result = .error (.upstream 404 "not found") :=
  ((C3_error_classification 1 upC3w emptyCacheNat 0 "/p" (by decide)).2.1
    404 "not found" 0 rfl).1 (by decide)

/-- C4 counterexample: with `artwork_id = "ab"` and `title = "cd"`, the
query `"bc"` occurs in the plain concatenation the claim describes, yet the
filter drops the artwork, because the f-string joins the fields with
spaces. -/
theorem C4_counterexample :
    claimConcatMatches "bc" aC4 = true
    ∧ queryFilter (some "bc") [aC4] = [] := by
  refine ⟨by decide, by decide⟩

/-- C4 (amended): for a truthy query that stays non-empty after
lower-casing and stripping, the text filter keeps exactly the artworks in
which that normalised query occurs in the lower-cased, space-separated
concatenation of the five fields (missing fields as `''`). -/
theorem C4_query_filter (collection : List Artwork) (qs : String)
    (hq : qs ≠ "") (hql : pyStrip (strLower qs) ≠ "") :
    queryFilter (some qs) collection
      = collection.filter (matches_query (pyStrip (strLower qs)))
    ∧ ∀ a : Artwork, a ∈ queryFilter (some qs) collection
        ↔ a ∈ collection ∧
          strContains
            (strLower (a.artwork_id.getD "" ++ " " ++ a.title.getD "" ++ " "
              ++ a.keywords.getD "" ++ " " ++ a.medium.getD "" ++ " " ++ a.surface.getD ""))
            (pyStrip (strLower qs)) = true := by
  have hdef : queryFilter (some qs) collection
      = collection.filter (matches_query (pyStrip (strLower qs))) := by
    simp [queryFilter, hq, hql]
  refine ⟨hdef, fun a => ?_⟩
  rw [hdef, List.mem_filter]
  rfl

/-- Witness for C4 (amended): the spec's own example, query `"OIL"` against
`medium = "Oil on canvas"`, matches case-insensitively. -/
theorem C4_witness :
    aC4w ∈ queryFilter (some "OIL") [aC4w] :=
  ((C4_query_filter [aC4w] "OIL" (by decide) (by decide)).2 aC4w).mpr
    ⟨by simp, by decide⟩

/-- C5 counterexample: an artwork whose `year` is the JSON number `0`
parses as the integer `0 ≥ -5`, so the claim keeps it, but `year_gte`
drops it: Python's `if not year` treats `0` as missing. -/
theorem C5_counterexample :
    claimYearGte (-5) aC5 = true
    ∧ year_gte (-5) aC5 = false
    ∧ yearFromFilter (some (-5)) [aC5] = [] := by
  refine ⟨by decide, by decide, by decide⟩

/-- C5 (amended): the year filters keep exactly the artworks whose `year`
is present, truthy (not `''` and not `0`), and converts to an integer
satisfying the bound; missing, falsy or non-numeric years are always
excluded. -/
theorem C5_year_filters (yf yt : Int) (a : Artwork) :
    (year_gte yf a = true ↔ ∃ y, a.year = some y ∧ y.pyTruthy = true ∧
        ∃ n, y.pyToInt = some n ∧ yf ≤ n)
    ∧ (year_lte yt a = true ↔ ∃ y, a.year = some y ∧ y.pyTruthy = true ∧
        ∃ n, y.pyToInt = some n ∧ n ≤ yt)
    ∧ (a.year = none → year_gte yf a = false ∧ year_lte yt a = false)
    ∧ (∀ y, a.year = some y → y.pyToInt = none →
        year_gte yf a = false ∧ year_lte yt a = false)
    ∧ (∀ items : List Artwork,
        yearFromFilter (some yf) items = items.filter (year_gte yf)
        ∧ yearToFilter (some yt) items = items.filter (year_lte yt)) := by
  refine ⟨?_, ?_, ?_, ?_, fun items => ⟨rfl, rfl⟩⟩
  · unfold year_gte
    cases hy : a.year with
    | none => simp
    | some y =>
      cases ht : y.pyTruthy with
      | false => simp [ht]
      | true =>
        cases hi : y.pyToInt with
        | none => simp [ht, hi]
        | some n => simp [ht, hi]
  · unfold year_lte
    cases hy : a.year with
    | none => simp
    | some y =>
      cases ht : y.pyTruthy with
      | false => simp [ht]
      | true =>
        cases hi : y.pyToInt with
        | none => simp [ht, hi]
        | some n => simp [ht, hi]
  · intro hy
    unfold year_gte year_lte
    rw [hy]
    exact ⟨rfl, rfl⟩
  · intro y hy hi
    unfold year_gte year_lte
    rw [hy]
    cases ht : y.pyTruthy with
    | false => simp [ht]
    | true => simp [ht, hi]

/-- Witness for C5 (amended): the string year `"1995"` passes
`year_from = 1990`. -/
theorem C5_witness : year_gte 1990 aC5w = true :=
  (C5_year_filters 1990 2000 aC5w).1.mpr
    ⟨.str "1995", rfl, by decide, 1995, by decide, by decide⟩

/-- C6 counterexample: with the filter value `"Oil"` and an artwork medium
`"Oil "` (trailing space), the claim's trimmed comparison matches, yet the
filter drops the artwork: the code lower-cases the artwork's medium but
never strips it. -/
theorem C6_counterexample :
    claimMediumEq "Oil" aC6 = true
    ∧ mediumFilter (some "Oil") [aC6] = [] := by
  refine ⟨by decide, by decide⟩

/-- C6 (amended): for a truthy medium filter value, the filter keeps
exactly the artworks whose medium lower-cased — without stripping — equals
the lower-cased and stripped filter value. -/
theorem C6_medium_filter (collection : List Artwork) (mv : String) (hm : mv ≠ "") :
    mediumFilter (some mv) collection
      = collection.filter (fun a => strLower (a.medium.getD "") == pyStrip (strLower mv))
    ∧ ∀ a : Artwork, a ∈ mediumFilter (some mv) collection
        ↔ a ∈ collection ∧ strLower (a.medium.getD "") = pyStrip (strLower mv) := by
  have hdef : mediumFilter (some mv) collection
      = collection.filter (fun a => strLower (a.medium.getD "") == pyStrip (strLower mv)) := by
    simp [mediumFilter, hm]
  refine ⟨hdef, fun a => ?_⟩
  rw [hdef, List.mem_filter, beq_iff_eq]

/-- Witness for C6 (amended): filter value `" OIL on Canvas "` matches the
artwork medium `"Oil on canvas"` after normalising the filter value. -/
theorem C6_witness :
    mediumFilter (some " OIL on Canvas ") [aC6w] = [aC6w] := by
  rw [(C6_medium_filter [aC6w] " OIL on Canvas " (by decide)).1]
  decide

/-- Ceiling division by the code's formula dominates: `a ≤ ⌈a/b⌉ * b`. -/
theorem le_ceil_mul (a b : Nat) (hb : 1 ≤ b) : a ≤ ((a + b - 1) / b) * b := by
  cases a with
  | zero => exact Nat.zero_le _
  | succ c =>
    have h1 : c + 1 + b - 1 = c + b := by omega
    rw [h1, Nat.add_div_right _ (by omega)]
    have h2 := Nat.div_add_mod c b
    have h3 := Nat.mod_lt c (show 0 < b by omega)
    have h4 : (c / b + 1) * b = b * (c / b) + b := by ring
    rw [h4]
    omega

/-- A list of length at most `n * pp` is exhausted by `n` page slices of
size `pp`. -/
theorem chunk_sum {A : Type} (n pp : Nat) :
    ∀ l : List A, l.length ≤ n * pp →
      (Finset.range n).sum (fun i => ((l.drop (i * pp)).take pp).length) = l.length := by
  induction n with
  | zero =>
    intro l hl
    simp at hl
    simp [hl]
  | succ m ih =>
    intro l hl
    rw [Finset.sum_range_succ']
    have hdrop : ∀ i : Nat, l.drop ((i + 1) * pp) = (l.drop pp).drop (i * pp) := by
      intro i
      rw [List.drop_drop]
      congr 1
      ring
    have hrw : (Finset.range m).sum (fun i => ((l.drop ((i + 1) * pp)).take pp).length)
        = (Finset.range m).sum (fun i => (((l.drop pp).drop (i * pp)).take pp).length) := by
      refine Finset.sum_congr rfl (fun i _ => ?_)
      rw [hdrop i]
    have hmul : (m + 1) * pp = m * pp + pp := by ring
    rw [hrw, ih (l.drop pp) (by simp only [List.length_drop]; omega)]
    simp [List.length_take, List.length_drop]
    omega

/-- The page-clamping expression of `gallery_index` lands in `[1, tp]` and
is forced to `1` on an empty result. -/
theorem page_clamp (x tp ti : Nat) (htp : 1 ≤ tp) :
    1 ≤ max 1 (min x (if ti > 0 then tp else 1))
    ∧ max 1 (min x (if ti > 0 then tp else 1)) ≤ tp
    ∧ (ti = 0 → max 1 (min x (if ti > 0 then tp else 1)) = 1) := by
  rcases Nat.eq_zero_or_pos ti with h | h <;> simp [h] <;> omega

/-- The total item count never exceeds `total_pages * per_page`. -/
theorem total_le (ti P : Nat) (hP : 1 ≤ P) :
    ti ≤ max 1 ((ti + P - 1) / P) * P :=
  le_trans (le_ceil_mul ti P hP) (Nat.mul_le_mul_right _ (Nat.le_max_right _ _))

/-- C2: `gallery_index` normalises `per_page` outside `[1,100]` to 24 and
`page` below 1 to 1, reports `total_items` as the filtered count and
`total_pages = max 1 ⌈total_items / per_page⌉`, clamps the page into
`[1, total_pages]` (1 when empty), returns the slice
`[(page-1)·per_page, page·per_page)` of the filtered sequence, and the page
sizes over all pages sum to `total_items`. -/
theorem C2_pagination (c : List Artwork) (q : Option String) (yf yt : Option Int)
    (m : Option String) (pg pp : Int) :
    (gallery_index c q yf yt m pg pp).pagination.per_page
      = (if pp < 1 ∨ pp > 100 then 24 else pp).toNat
    ∧ 1 ≤ (gallery_index c q yf yt m pg pp).pagination.per_page
    ∧ (gallery_index c q yf yt m pg pp).pagination.per_page ≤ 100
    ∧ (gallery_index c q yf yt m pg pp).pagination.total_items
      = (filteredItems c q yf yt m).length
    ∧ (gallery_index c q yf yt m pg pp).pagination.total_pages
      = max 1 (((gallery_index c q yf yt m pg pp).pagination.total_items
          + (gallery_index c q yf yt m pg pp).pagination.per_page - 1)
          / (gallery_index c q yf yt m pg pp).pagination.per_page)
    ∧ (gallery_index c q yf yt m pg pp).pagination.total_items
      ≤ (gallery_index c q yf yt m pg pp).pagination.total_pages
          * (gallery_index c q yf yt m pg pp).pagination.per_page
    ∧ 1 ≤ (gallery_index c q yf yt m pg pp).pagination.page
    ∧ (gallery_index c q yf yt m pg pp).pagination.page
      ≤ (gallery_index c q yf yt m pg pp).pagination.total_pages
    ∧ ((gallery_index c q yf yt m pg pp).pagination.total_items = 0 →
        (gallery_index c q yf yt m pg pp).pagination.page = 1)
    ∧ (gallery_index c q yf yt m pg pp).artworks
      = ((filteredItems c q yf yt m).drop
          (((gallery_index c q yf yt m pg pp).pagination.page - 1)
            * (gallery_index c q yf yt m pg pp).pagination.per_page)).take
          (gallery_index c q yf yt m pg pp).pagination.per_page
    ∧ (Finset.range (gallery_index c q yf yt m pg pp).pagination.total_pages).sum
        (fun i => (((filteredItems c q yf yt m).drop
          (i * (gallery_index c q yf yt m pg pp).pagination.per_page)).take
          (gallery_index c q yf yt m pg pp).pagination.per_page).length)
      = (gallery_index c q yf yt m pg pp).pagination.total_items := by
  have hP : 1 ≤ (if pp < 1 ∨ pp > 100 then 24 else pp).toNat
      ∧ (if pp < 1 ∨ pp > 100 then 24 else pp).toNat ≤ 100 := by
    split <;> omega
  have key := page_clamp (if pg < 1 then 1 else pg).toNat
      (max 1 (((filteredItems c q yf yt m).length
          + (if pp < 1 ∨ pp > 100 then 24 else pp).toNat - 1)
        / (if pp < 1 ∨ pp > 100 then 24 else pp).toNat))
      (filteredItems c q yf yt m).length (Nat.le_max_left _ _)
  have htot := total_le (filteredItems c q yf yt m).length
      (if pp < 1 ∨ pp > 100 then 24 else pp).toNat hP.1
  exact ⟨rfl, hP.1, hP.2, rfl, rfl, htot, key.1, key.2.1, key.2.2, rfl,
    chunk_sum _ _ (filteredItems c q yf yt m) htot⟩

/-- C7: the medium dropdown list is the same whatever the filter and
pagination parameters, equals the sorted distinct non-empty stripped
mediums of the unfiltered collection, is sorted and duplicate-free, and
contains exactly the non-empty stripped medium values occurring in the
collection. -/
theorem C7_mediums (c : List Artwork) (q q' : Option String) (yf yf' yt yt' : Option Int)
    (m m' : Option String) (pg pg' pp pp' : Int) :
    (gallery_index c q yf yt m pg pp).mediums
      = (gallery_index c q' yf' yt' m' pg' pp').mediums
    ∧ (gallery_index c q yf yt m pg pp).mediums = galleryMediums c
    ∧ List.Sorted (· ≤ ·) ((gallery_index c q yf yt m pg pp).mediums)
    ∧ ((gallery_index c q yf yt m pg pp).mediums).Nodup
    ∧ ∀ s : String, s ∈ (gallery_index c q yf yt m pg pp).mediums
        ↔ (s ≠ "" ∧ ∃ a ∈ c, pyStrip (a.medium.getD "") = s) := by
  refine ⟨rfl, rfl, ?_, ?_, fun s => ?_⟩
  · exact List.sorted_insertionSort _ _
  · exact (List.perm_insertionSort _ _).nodup_iff.mpr (List.nodup_dedup _)
  · show s ∈ galleryMediums c ↔ _
    unfold galleryMediums
    rw [(List.perm_insertionSort _ _).mem_iff, List.mem_dedup, List.mem_filter]
    simp only [List.mem_map, decide_not, Bool.not_eq_eq_eq_not, Bool.not_true,
      decide_eq_false_iff_not]
    tauto

/-- C8: `media_proxy` rejects with a 400 and no upstream call exactly the
paths containing `..` or starting with `/`; for every other path the
upstream media request is attempted and no path rejection occurs. -/
theorem C8_media_guard {α : Type} (upstream : String → UpstreamResult α) (p : String) :
    ((strContains p ".." || strStarts p "/") = true →
      media_proxy upstream p = ⟨.invalidPath400, false⟩)
    ∧ ((strContains p ".." || strStarts p "/") = false →
      (media_proxy upstream p).upstreamCalled = true
      ∧ (media_proxy upstream p).response ≠ .invalidPath400) := by
  refine ⟨fun h => ?_, fun h => ?_⟩
  · simp [media_proxy, h]
  · have hstep : media_proxy upstream p
        = match upstream ("/media/" ++ p) with
          | .transportError _ => ⟨.unavailable503, true⟩
          | .response status _ _ =>
            if status < 400 then ⟨.streamed, true⟩
            else ⟨.upstreamStatusError status, true⟩ := by
      simp [media_proxy, h]
    rw [hstep]
    cases hu : upstream ("/media/" ++ p) with
    | transportError msg => exact ⟨rfl, by simp⟩
    | response s b j =>
      dsimp only
      split
      · exact ⟨rfl, by simp⟩
      · exact ⟨rfl, by simp⟩

/-- Witness for C8: the spec's example `../secret` is rejected before any
upstream call. -/
theorem C8_witness : media_proxy upC8 "../secret" = ⟨.invalidPath400, false⟩ :=
  (C8_media_guard upC8 "../secret").1 (by decide)

/-- C9: `clear_cache` answers 403 and leaves the cache dictionaries
untouched whenever the supplied secret differs from the configured one or
no secret is configured; on an exact match with a configured non-empty
secret it empties both dictionaries, so every subsequent fetch must go
upstream. -/
theorem C9_clear_cache {α : Type} (API_KEY api_key : String) (st : CacheState α) :
    ((api_key ≠ API_KEY ∨ API_KEY = "") →
        clear_cache API_KEY api_key st = (.error 403, st))
    ∧ (api_key = API_KEY → API_KEY ≠ "" →
        clear_cache API_KEY api_key st = (.ok (), ⟨fun _ => none, fun _ => none⟩)
        ∧ ∀ (ttl now : Int) (upstream : String → UpstreamResult α) (path : String),
            (fetch ttl upstream (clear_cache API_KEY api_key st).2 now path).upstreamCalled
              = true) := by
  refine ⟨fun h => ?_, fun h1 h2 => ?_⟩
  · unfold clear_cache
    rw [if_pos h]
  · have hcond : ¬(api_key ≠ API_KEY ∨ API_KEY = "") := by
      push_neg
      exact ⟨h1, h2⟩
    refine ⟨?_, fun ttl now upstream path => ?_⟩
    · unfold clear_cache
      rw [if_neg hcond]
    · have hclear : (clear_cache API_KEY api_key st).2
          = (⟨fun _ => none, fun _ => none⟩ : CacheState α) := by
        unfold clear_cache
        rw [if_neg hcond]
      rw [hclear, fetch_miss upstream (by rfl)]
      exact fetchFresh_called upstream _ now path

/-- Witness for C9: a wrong secret is refused with 403 and the stale cache
survives. -/
theorem C9_witness : clear_cache "s3cret" "wrong" stC9 = (.error 403, stC9) :=
  (C9_clear_cache "s3cret" "wrong" stC9).1 (Or.inl (by decide))

/-- C10 (failing input for the code bug): with a fresh cache entry for
`/api/artworks` (age 10 < TTL 300) and the backend down at transport level,
`health_check` issues no upstream request at all and still reports healthy
— the probe is answered from the cache, contradicting the live upstream
check the spec (and the code's own `Test backend connectivity` comment)
describe. -/
theorem C10_health_uses_cache :
    (health_check 300 upC10 stC10 10).upstreamCalled = false
    ∧ (health_check 300 upC10 stC10 10).status = .healthy
    ∧ upC10 "/api/artworks" = .transportError "connection refused" :=
  ⟨by decide, by decide, rfl⟩

end ArtGallery
